import Mathlib

/-!
Shallow embedding of the `adaptive_cards_toolkit` core (Python) in Lean 4:
`ElementFactory`, `LayoutHelper`, `DataConnector` and `ValidationUtility`
from `src/adaptive_cards_toolkit/core/`.  Python dictionaries are modelled
as association lists in insertion order (CPython guarantees insertion-order
iteration), Python floats as exact rationals, Python `set` iteration order
as an abstract enumeration function constrained only by the guarantees the
`set` type gives (membership and no duplicates), and functions of the
third-party `adaptive_cards` library as parameters or as definitions
modelled from the specification where indicated.
-/

/-- Font sizes of `adaptive_cards.card_types.FontSize` (the ones this
toolkit uses). -/
inductive FontSize where
  | small
  | default
  | medium
  | large
  | extraLarge
deriving DecidableEq

/-- Font weights of `adaptive_cards.card_types.FontWeight`. -/
inductive FontWeight where
  | lighter
  | default
  | bolder
deriving DecidableEq

/-- Text colors of `adaptive_cards.card_types.Colors` (the ones used). -/
inductive Colors where
  | default
  | accent
  | good
  | warning
  | attention
deriving DecidableEq

/-- Container styles of `adaptive_cards.card_types.ContainerStyle`. -/
inductive ContainerStyle where
  | default
  | emphasis
  | accent
  | good
  | warning
  | attention
deriving DecidableEq

/-- Spacing values of `adaptive_cards.card_types.Spacing` (the ones used). -/
inductive Spacing where
  | small
  | default
  | medium
  | large
deriving DecidableEq

/-- A column width: Python `Union[int, str]` (`width=1`, `width="auto"`,
`width="stretch"`). -/
inductive ColWidth where
  | num : Int → ColWidth
  | str : String → ColWidth
deriving DecidableEq

/-- The fields of `adaptive_cards.elements.TextBlock` that this toolkit
sets.  Fields the toolkit never passes keep the library default `None`
(here `none`). -/
structure TBlock where
  text : String
  size : Option FontSize := none
  weight : Option FontWeight := none
  color : Option Colors := none
  wrap : Bool := false
  isSubtle : Option Bool := none
deriving DecidableEq

/-- `adaptive_cards.containers.CardFact`: an immutable title/value pair. -/
structure CardFact where
  title : String
  value : String
deriving DecidableEq

mutual

/-- Card elements produced by the toolkit: text blocks, fact sets,
containers (items, style, spacing, separator, bleed) and column sets.
Container fields the toolkit never passes keep the library defaults
(`separator=False`, `bleed=False`, `spacing=None`). -/
inductive Element where
  | textBlock : TBlock → Element
  | factSet : List CardFact → Element
  | container : List Element → Option ContainerStyle → Option Spacing →
      Bool → Bool → Element
  | columnSet : List Column → Element

/-- `adaptive_cards.containers.Column`: items and a width (the two fields
`DataConnector.create_table` sets). -/
inductive Column where
  | mk : List Element → ColWidth → Column

end

namespace ElementFactory

/-- `ElementFactory.create_text(text, is_subtle=False, weight=None,
color=None)`: a word-wrapped text block. -/
def create_text (text : String) (is_subtle : Bool)
    (weight : Option FontWeight) (color : Option Colors) : TBlock :=
  { text := text, wrap := true, isSubtle := some is_subtle,
    weight := weight, color := color }

/-- `ElementFactory.create_heading(text, level=1)`: the size comes from the
Python dict lookup `{1: EXTRA_LARGE, 2: LARGE, 3: MEDIUM}.get(level, MEDIUM)`;
the block is always bold and word-wrapped. -/
def create_heading (text : String) (level : Int) : TBlock :=
  let size : FontSize :=
    if level = 1 then .extraLarge
    else if level = 2 then .large
    else if level = 3 then .medium
    else .medium
  { text := text, size := some size, weight := some .bolder, wrap := true }

end ElementFactory

namespace LayoutHelper

/-- Python truthiness of an `Optional[List[...]]`: `None` and `[]` are
falsy, a non-empty list is truthy. -/
def pyTruthyList {α : Type} (l : Option (List α)) : Bool :=
  match l with
  | none => false
  | some xs => !xs.isEmpty

/-- `LayoutHelper.create_header_body_footer_layout(header_items, body_items,
footer_items=None, header_style=EMPHASIS, body_style=None,
footer_style=ACCENT)`: a header container with `bleed=True`, a body
container with `spacing=MEDIUM`, and — only `if footer_items:` is truthy —
a footer container with `spacing=MEDIUM, separator=True`. -/
def create_header_body_footer_layout (header_items body_items : List Element)
    (footer_items : Option (List Element))
    (header_style body_style footer_style : Option ContainerStyle) :
    List Element :=
  let containers : List Element :=
    [Element.container header_items header_style none false true,
     Element.container body_items body_style (some .medium) false false]
  if pyTruthyList footer_items then
    containers ++ [Element.container (footer_items.getD []) footer_style
      (some .medium) true false]
  else
    containers

end LayoutHelper

namespace DataConnector

/-- `DataConnector.create_fact_set(facts)`: one `CardFact` per entry, in the
dictionary's iteration (= insertion) order. -/
def create_fact_set (facts : List (String × String)) : Element :=
  .factSet (facts.map fun p => { title := p.1, value := p.2 })

/-- The body of the `for i, item in enumerate(items, 1)` loop of
`DataConnector.create_list`, with the running 1-based counter explicit. -/
def create_list_from (is_numbered : Bool) : Nat → List String → List Element
  | _, [] => []
  | i, item :: rest =>
      .textBlock { text := (if is_numbered then toString i ++ ". "
                            else "â€¢ ") ++ item, wrap := true }
        :: create_list_from is_numbered (i + 1) rest

/-- `DataConnector.create_list(items, is_numbered=False)`. -/
def create_list (items : List String) (is_numbered : Bool) : List Element :=
  create_list_from is_numbered 1 items

/-- One data-row cell loop of `DataConnector.create_table`: columns are
appended for `col_idx < len(column_widths)` only, pairing each kept cell
with `column_widths[col_idx]` — i.e. a `zipWith` of widths and cells. -/
def rowColumns (cwList : List ColWidth) (row : List String) : List Column :=
  List.zipWith
    (fun w c => Column.mk
      [.textBlock (ElementFactory.create_text c false none none)] w)
    cwList row

/-- One header cell loop of `DataConnector.create_table`: every header `i`
is paired with `column_widths[i]` (callers must supply enough widths,
see `create_table`). -/
def headerColumns (cwList : List ColWidth) (headers : List String) :
    List Column :=
  List.zipWith
    (fun h w => Column.mk
      [.textBlock (ElementFactory.create_text h false (some .bolder) none)] w)
    headers cwList

/-- The `for row_idx, row in enumerate(rows)` loop of
`DataConnector.create_table`, with the running 0-based row index explicit:
each row becomes a container holding one column set, and with
`alternate_row_style` the containers at odd index get the accent style. -/
def dataRowContainers (alternate_row_style : Bool) (cwList : List ColWidth) :
    Nat → List (List String) → List Element
  | _, [] => []
  | idx, row :: rest =>
      Element.container [.columnSet (rowColumns cwList row)]
        (if alternate_row_style ∧ idx % 2 = 1 then some .accent else none)
        none false false
      :: dataRowContainers alternate_row_style cwList (idx + 1) rest

/-- Parsed JSON values as Python objects: strings, integers, booleans,
`None`, lists and dicts (a dict is an association list in insertion order,
keys iterated in that order). -/
inductive JsonValue where
  | str : String → JsonValue
  | num : Int → JsonValue
  | bool : Bool → JsonValue
  | null : JsonValue
  | arr : List JsonValue → JsonValue
  | obj : List (String × JsonValue) → JsonValue

/-- Whether a value `isinstance(·, dict)`. -/
def JsonValue.isObj : JsonValue → Bool
  | .obj _ => true
  | _ => false

/-- `item.keys()` of a dict, in iteration order (empty for non-dicts). -/
def JsonValue.keys : JsonValue → List String
  | .obj fields => fields.map Prod.fst
  | _ => []

/-- `item.get(key, default)`: the first binding of `key`, if any. -/
def JsonValue.get? (v : JsonValue) (key : String) : Option JsonValue :=
  match v with
  | .obj fields => (fields.find? fun p => p.1 = key).map Prod.snd
  | _ => none

mutual

/-- Python `repr` of a parsed JSON value (used by `str` on dicts and
lists); exact quoting details are not load-bearing for any claim. -/
def pyRepr : JsonValue → String
  | .str s => "\x27" ++ s ++ "\x27"
  | .num n => toString n
  | .bool b => if b then "True" else "False"
  | .null => "None"
  | .arr xs => "[" ++ pyReprList xs ++ "]"
  | .obj fs => "\x7b" ++ pyReprFields fs ++ "\x7d"

/-- Comma-separated `repr`s of list entries. -/
def pyReprList : List JsonValue → String
  | [] => ""
  | [x] => pyRepr x
  | x :: xs => pyRepr x ++ ", " ++ pyReprList xs

/-- Comma-separated `repr`s of dict entries. -/
def pyReprFields : List (String × JsonValue) → String
  | [] => ""
  | [p] => "\x27" ++ p.1 ++ "\x27: " ++ pyRepr p.2
  | p :: ps => "\x27" ++ p.1 ++ "\x27: " ++ pyRepr p.2 ++ ", " ++
      pyReprFields ps

end

/-- Python `str(...)` of a parsed JSON value: identity on strings, decimal
on integers, `True`/`False`, `None`, and `repr` on containers. -/
def pyStr : JsonValue → String
  | .str s => s
  | .num n => toString n
  | .bool b => if b then "True" else "False"
  | .null => "None"
  | v => pyRepr v

mutual

/-- `json.dumps(value, indent=2)` as used for nested values; modelled as a
JSON rendering (the exact indentation whitespace is not load-bearing for
any claim). -/
def jsonDumps : JsonValue → String
  | .str s => "\"" ++ s ++ "\""
  | .num n => toString n
  | .bool b => if b then "true" else "false"
  | .null => "null"
  | .arr xs => "[" ++ jsonDumpsList xs ++ "]"
  | .obj fs => "\x7b" ++ jsonDumpsFields fs ++ "\x7d"

/-- Comma-separated dumps of list entries. -/
def jsonDumpsList : List JsonValue → String
  | [] => ""
  | [x] => jsonDumps x
  | x :: xs => jsonDumps x ++ ", " ++ jsonDumpsList xs

/-- Comma-separated dumps of dict entries. -/
def jsonDumpsFields : List (String × JsonValue) → String
  | [] => ""
  | [p] => "\"" ++ p.1 ++ "\": " ++ jsonDumps p.2
  | p :: ps => "\"" ++ p.1 ++ "\": " ++ jsonDumps p.2 ++ ", " ++
      jsonDumpsFields ps

end

/-- `DataConnector.create_table(headers, rows, column_widths=None,
has_header_row=True, alternate_row_style=True)`.  When `column_widths` is
`None` it defaults to `[1] * len(headers)`.  The header loop indexes
`column_widths[i]` for every header `i`; when the supplied width list is
shorter than the headers Python raises `IndexError`, modelled here as
`none`. -/
def create_table (headers : List String) (rows : List (List String))
    (column_widths : Option (List ColWidth))
    (has_header_row alternate_row_style : Bool) :
    Option (List Element) :=
  let cwList := column_widths.getD
    (List.replicate headers.length (ColWidth.num 1))
  if has_header_row ∧ cwList.length < headers.length then none
  else
    let headerPart : List Element :=
      if has_header_row then
        [Element.container [.columnSet (headerColumns cwList headers)]
          (some .emphasis) none true false]
      else []
    some (headerPart ++ dataRowContainers alternate_row_style cwList 0 rows)

/-- The input of `DataConnector.from_json`: either a JSON string (to be
parsed with `json.loads`) or an already parsed value. -/
inductive JsonInput where
  | text : String → JsonInput
  | value : JsonValue → JsonInput

/-- The contract CPython gives for `list(s)` of a `set` `s` built from the
elements of a scan list: some duplicate-free enumeration of exactly the
members of the scan list, in an implementation-dependent order.  Any
function satisfying this predicate is a possible behaviour of
`list(all_keys)` in `DataConnector.from_json`. -/
def ValidSetOrder (f : List String → List String) : Prop :=
  ∀ ks : List String, (f ks).Nodup ∧ ∀ k, k ∈ f ks ↔ k ∈ ks

/-- First-seen left-to-right union: every key at the position of its first
occurrence in the scan list.  This is the ordering the specification
prescribes for the table headers of `inferAndMap`. -/
def firstSeen : List String → List String
  | [] => []
  | k :: ks => k :: (firstSeen ks).filter (fun a => a ≠ k)

/-- The header computation of `DataConnector.from_json` (lines 150–154):
`all_keys = set(); for item in data: all_keys.update(item.keys());
headers = list(all_keys)` — the set enumeration `setOrder` applied to the
concatenated key scan. -/
def fromJsonHeaders (setOrder : List String → List String)
    (data : List JsonValue) : List String :=
  setOrder (data.flatMap JsonValue.keys)

/-- The stringified value of `item.get(key, "")` in a table row:
the found value through `str`, or `str("") = ""` when the key is absent. -/
def rowCell (item : JsonValue) (key : String) : String :=
  match item.get? key with
  | some v => pyStr v
  | none => ""

/-- The value stringification of the dict branch of
`DataConnector.from_json`: `str(v)` for scalars, `json.dumps(v, indent=2)`
for nested dicts and lists. -/
def factValueStr (v : JsonValue) : String :=
  match v with
  | .obj _ => jsonDumps v
  | .arr _ => jsonDumps v
  | _ => pyStr v

/-- `DataConnector.from_json(json_data)`.  `loads` stands for the library
function `json.loads` (`none` = `JSONDecodeError`); `setOrder` stands for
the iteration order of the `set` of keys (see `ValidSetOrder`).  A string
input is parsed first; parse failure yields a single inline error text.
A dict becomes one fact set; a non-empty list of dicts becomes a table
over the collected keys; any other list becomes a bullet list; every
other value yields no elements. -/
def from_json (loads : String → Option JsonValue)
    (setOrder : List String → List String) (input : JsonInput) :
    List Element :=
  match input with
  | .text s =>
    match loads s with
    | none => [.textBlock (ElementFactory.create_text "Invalid JSON data"
        false none (some .attention))]
    | some data => from_json_parsed setOrder data
  | .value data => from_json_parsed setOrder data
where
  /-- The branches of `from_json` on the parsed value. -/
  from_json_parsed (setOrder : List String → List String)
      (data : JsonValue) : List Element :=
    match data with
    | .obj fields =>
        [create_fact_set (fields.map fun p => (p.1, factValueStr p.2))]
    | .arr items =>
        if !items.isEmpty && items.all JsonValue.isObj then
          let headers := fromJsonHeaders setOrder items
          let rows := items.map fun item => headers.map (rowCell item)
          (create_table headers rows none true true).getD []
        else
          create_list (items.map pyStr) false
    | _ => []

end DataConnector

/-- Python `str.lower()` (character-wise lowering; written over the
character list so that it evaluates by kernel reduction). -/
def pyLower (s : String) : String := ⟨s.data.map Char.toLower⟩

/-- Truthiness of `item.id` (an `Optional[str]`): `None` and `""` are
falsy. -/
def pyTruthyStr (s : Option String) : Bool :=
  match s with
  | none => false
  | some v => v != ""

/-- Fixed-point rendering of a rational, as Python `format(q, ".Nf")`;
ties are rounded here with `round` where Python rounds half to even — the
difference is not load-bearing for any claim (no claim inspects a tie). -/
def fmtFixed (prec : Nat) (q : ℚ) : String :=
  let scaled : ℤ := round (q * ((10 : ℚ) ^ prec))
  let sign := if scaled < 0 then "-" else ""
  let m := scaled.natAbs
  let base := (10 : Nat) ^ prec
  let fpStr := toString (m % base)
  sign ++ toString (m / base) ++ "." ++
    String.mk (List.replicate (prec - fpStr.length) '0') ++ fpStr

/-- A top-level body item of an `adaptive_cards.card.AdaptiveCard`, with
the three attributes `ValidationUtility` inspects: its `id`, whether it
exposes a `url` attribute (images) and whether it exposes an `items`
attribute (containers). -/
structure BodyItem where
  id : Option String := none
  hasUrl : Bool := false
  hasItems : Bool := false

/-- `adaptive_cards.card.AdaptiveCard` as `ValidationUtility` reads it:
a schema `version` and an optional `body` (`card.body or []` treats `None`
as empty). -/
structure AdaptiveCard where
  version : String
  body : Option (List BodyItem) := none

/-- `adaptive_cards.validation.Result`. -/
inductive Result where
  | SUCCESS
  | FAILURE
deriving DecidableEq, BEq

/-- `adaptive_cards.validation.ValidationFailure`: the failure kinds the
toolkit branches on. -/
inductive ValidationFailure where
  | EMPTY_CARD
  | INVALID_FIELD_VERSION
  | SIZE_LIMIT_EXCEEDED
deriving DecidableEq

/-- The `.value` string of each library failure-enum member.
`EMPTY_CARD`'s value is pinned by the repository's own test
(`test_validate_failure` expects `details == ["card body is empty"]`);
the other two are injective placeholders, not pinned by the repository. -/
def ValidationFailure.value : ValidationFailure → String
  | .EMPTY_CARD => "card body is empty"
  | .INVALID_FIELD_VERSION => "invalid field version"
  | .SIZE_LIMIT_EXCEEDED => "size limit exceeded"

/-- Modelled from the spec: the `adaptive_cards` library validator built by
`CardValidatorFactory.create_validator_microsoft_teams()` (the library is
not part of this repository).  Per the specification's Validator section it
computes, deterministically per card: the card's serialized size in KB
(`sizeFn`, kept abstract), whether all elements fit the card's schema
version (`schemaOk`, kept abstract), and an ordered list of findings —
`EMPTY_CARD` for an empty body, `INVALID_FIELD_VERSION` for schema
violations, `SIZE_LIMIT_EXCEEDED` when the size exceeds the Teams 28 KB
limit.  `validate` stores the findings, which `details()` then returns
(`lastDetails` is that stored state). -/
structure CardValidator where
  sizeFn : AdaptiveCard → ℚ
  schemaOk : AdaptiveCard → Bool
  lastDetails : List ValidationFailure

/-- Modelled from the spec: the findings of one library validation run,
in the specification's check order. -/
def CardValidator.findings (v : CardValidator) (card : AdaptiveCard) :
    List ValidationFailure :=
  (if (card.body.getD []).isEmpty then [.EMPTY_CARD] else []) ++
  (if v.schemaOk card then [] else [.INVALID_FIELD_VERSION]) ++
  (if v.sizeFn card > 28 then [.SIZE_LIMIT_EXCEEDED] else [])

/-- Modelled from the spec: `validator.validate(card)` — success iff no
finding, and the findings stored for a later `details()` call. -/
def CardValidator.runValidate (v : CardValidator) (card : AdaptiveCard) :
    Result × CardValidator :=
  let fs := v.findings card
  (if fs.isEmpty then .SUCCESS else .FAILURE,
   { v with lastDetails := fs })

/-- Modelled from the spec: `validator.details()` returns the stored
findings of the most recent `validate` call. -/
def CardValidator.details (v : CardValidator) : List ValidationFailure :=
  v.lastDetails

/-- `validator.card_size(card)`: the serialized size in KB. -/
def CardValidator.card_size (v : CardValidator) (card : AdaptiveCard) : ℚ :=
  v.sizeFn card

/-- The error the specification says an unknown platform target raises at
construction time (no such exception exists in the repository's code). -/
inductive ConfigurationError where
  | unknownTarget : String → ConfigurationError
deriving DecidableEq

/-- `ValidationUtility`: the stored `target` string and the library
validator chosen at construction time. -/
structure ValidationUtility where
  target : String
  validator : CardValidator

/-- `ValidationUtility.__init__(target="teams")`.  The result type is
`Except` so that the specification's claim of a raised
`ConfigurationError` can be stated; the Python constructor body contains
no `raise`: for `target.lower() == "teams"` it picks the Teams validator,
and for every other target it falls back to the very same Teams validator
(source comment: "Use Teams validator as default"). -/
def mkValidationUtility (teamsValidator : CardValidator) (target : String) :
    Except ConfigurationError ValidationUtility :=
  if pyLower target = "teams" then
    .ok { target := target, validator := teamsValidator }
  else
    .ok { target := target, validator := teamsValidator }

/-- The validation report dictionary returned by
`ValidationUtility.validate` (sizes as exact rationals). -/
structure Report where
  valid : Bool
  details : List String
  size : ℚ
  size_limit : ℚ
  warnings : List String
  suggestions : List String
deriving DecidableEq

/-- The four fixed suggestions appended for a `SIZE_LIMIT_EXCEEDED`
finding. -/
def sizeLimitSuggestions : List String :=
  ["Card size exceeds the limit for the target platform.",
   "Consider reducing the number of elements or simplifying complex elements.",
   "Minimize the use of images or use lower resolution images.",
   "Break content into multiple smaller cards if possible."]

/-- The suggestion(s) appended for one validation finding, in the order of
the `for finding in details` loop of `ValidationUtility.validate`. -/
def suggestionsFor (card : AdaptiveCard) : ValidationFailure → List String
  | .EMPTY_CARD =>
      ["Card body is empty. Add at least one element to the card."]
  | .INVALID_FIELD_VERSION =>
      ["Some elements or fields require a newer schema version than \x27" ++
       card.version ++
       "\x27. Consider upgrading the card version or removing incompatible elements."]
  | .SIZE_LIMIT_EXCEEDED => sizeLimitSuggestions

/-- `ValidationUtility.validate(card)`, with the mutation of the stored
library validator made explicit (the returned `ValidationUtility` carries
the validator state after its `validate` call). -/
def ValidationUtility.validate (vu : ValidationUtility)
    (card : AdaptiveCard) : Report × ValidationUtility :=
  let p := vu.validator.runValidate card
  let card_size := p.2.card_size card
  let details := p.2.details
  let size_limit_n : Nat := if pyLower vu.target = "teams" then 28 else 40
  let size_limit : ℚ := (size_limit_n : ℚ)
  let suggestions0 := details.flatMap (suggestionsFor card)
  let nearLimit : Bool :=
    decide (card_size > size_limit * 0.8 ∧ card_size ≤ size_limit)
  let warnings0 : List String :=
    if nearLimit then
      ["Card size (" ++ fmtFixed 2 card_size ++
       "KB) is approaching the limit (" ++ toString size_limit_n ++ "KB)."]
    else []
  let suggestions1 := suggestions0 ++
    (if nearLimit then ["Consider optimizing the card to reduce its size."]
     else [])
  let warnings1 := warnings0 ++
    (if (card.body.getD []).any (fun item => pyTruthyStr item.id) then []
     else
       ["No elements have IDs, which may limit interactivity and accessibility."])
  ({ valid := p.1 == Result.SUCCESS,
     details := details.map ValidationFailure.value,
     size := card_size,
     size_limit := size_limit,
     warnings := warnings1,
     suggestions := suggestions1 },
   { vu with validator := p.2 })

/-- `ValidationUtility.get_size(card)`. -/
def ValidationUtility.get_size (vu : ValidationUtility)
    (card : AdaptiveCard) : ℚ :=
  vu.validator.card_size card

/-- `ValidationUtility.suggest_optimizations(card)`: below 70% of the
limit nothing is suggested; above it, a size/percentage message, then —
each condition evaluated independently, in this order — an
element-count suggestion (`len(card.body or []) > 10`), an image
suggestion (`sum(1 for item in card.body or [] if hasattr(item, "url"))`
positive, naming the count) and a container suggestion (count of items
with an `items` attribute exceeding 3, naming the count). -/
def ValidationUtility.suggest_optimizations (vu : ValidationUtility)
    (card : AdaptiveCard) : List String :=
  let card_size := vu.validator.card_size card
  let size_limit_n : Nat := if pyLower vu.target = "teams" then 28 else 40
  let size_limit : ℚ := (size_limit_n : ℚ)
  if card_size > size_limit * 0.7 then
    let s0 := ["Card size (" ++ fmtFixed 2 card_size ++ "KB) is " ++
               fmtFixed 1 (card_size / size_limit * 100) ++ "% of the limit."]
    let s1 := s0 ++
      (if (card.body.getD []).length > 10 then
        ["Consider reducing the number of elements in the card."]
       else [])
    let image_count := (card.body.getD []).countP (fun item => item.hasUrl)
    let s2 := s1 ++
      (if image_count > 0 then
        ["Card contains " ++ toString image_count ++
         " images. Consider reducing image count or size."]
       else [])
    let container_count :=
      (card.body.getD []).countP (fun item => item.hasItems)
    s2 ++
      (if container_count > 3 then
        ["Card contains " ++ toString container_count ++
         " containers. Consider simplifying the structure."]
       else [])
  else []

/-- Whether a parsed JSON value is a scalar (neither a dict nor a list). -/
def DataConnector.JsonValue.isScalar : DataConnector.JsonValue → Bool
  | .obj _ => false
  | .arr _ => false
  | _ => true

/-- The column count of each container of a table (a container that is not
a single column set counts 0); used to observe the shape of
`create_table`'s output. -/
def DataConnector.containerColumnCounts (es : List Element) : List Nat :=
  es.map fun e =>
    match e with
    | .container [.columnSet cols] _ _ _ _ => cols.length
    | _ => 0

/-- A concrete library validator value, used to instantiate theorems about
`ValidationUtility` at concrete inputs. -/
def sampleValidator : CardValidator :=
  { sizeFn := fun _ => 0, schemaOk := fun _ => true, lastDetails := [] }

/-- C9: `create_heading` always word-wraps, is always bold, and its size is
extra-large for level 1, large for level 2, medium for level 3 and medium
for any level outside 1..3. -/
theorem ElementFactory.create_heading_spec (text : String) (level : Int) :
    (ElementFactory.create_heading text level).wrap = true ∧
    (ElementFactory.create_heading text level).weight =
      some FontWeight.bolder ∧
    (ElementFactory.create_heading text level).size =
      some (if level = 1 then FontSize.extraLarge
            else if level = 2 then FontSize.large
            else FontSize.medium) := by
  unfold ElementFactory.create_heading
  by_cases h1 : level = 1 <;> by_cases h2 : level = 2 <;>
    by_cases h3 : level = 3 <;> simp [h1, h2, h3]

/-- C8: `create_header_body_footer_layout` returns the header container
(with `bleed = true`) followed by the body container (with medium
spacing), and appends a footer container (medium spacing, separator) iff
the footer item list is non-empty. -/
theorem LayoutHelper.create_header_body_footer_layout_spec
    (header_items body_items : List Element)
    (footer_items : Option (List Element))
    (hs bs fs : Option ContainerStyle) :
    LayoutHelper.create_header_body_footer_layout header_items body_items
        footer_items hs bs fs =
      [Element.container header_items hs none false true,
       Element.container body_items bs (some .medium) false false] ++
      (if (footer_items.getD []).isEmpty then []
       else
        [Element.container (footer_items.getD []) fs (some .medium) true
          false]) := by
  unfold LayoutHelper.create_header_body_footer_layout
    LayoutHelper.pyTruthyList
  match footer_items with
  | none => simp
  | some xs => cases xs <;> simp

/-- C10: `from_json` on a value that is neither a dict nor a list — given
directly or parsed from a JSON string — yields the empty element list. -/
theorem DataConnector.from_json_scalar_empty
    (loads : String → Option DataConnector.JsonValue)
    (setOrder : List String → List String)
    (v : DataConnector.JsonValue) (hv : v.isScalar = true) :
    DataConnector.from_json loads setOrder (.value v) = [] ∧
    ∀ s, loads s = some v →
      DataConnector.from_json loads setOrder (.text s) = [] := by
  have hparsed : DataConnector.from_json.from_json_parsed setOrder v = [] := by
    cases v <;> simp_all [DataConnector.JsonValue.isScalar,
      DataConnector.from_json.from_json_parsed]
  refine ⟨hparsed, fun s hs => ?_⟩
  have hstep : DataConnector.from_json loads setOrder (.text s) =
      match loads s with
      | none => [.textBlock (ElementFactory.create_text "Invalid JSON data"
          false none (some .attention))]
      | some data => DataConnector.from_json.from_json_parsed setOrder data :=
    rfl
  rw [hstep, hs]
  exact hparsed

/-- Witness for C10 at the parsed integer 5 and at a string parsing to
it. -/
theorem DataConnector.from_json_scalar_empty_witness :
    DataConnector.from_json (fun _ => some (.num 5)) (fun ks => ks)
      (.value (.num 5)) = [] ∧
    DataConnector.from_json (fun _ => some (.num 5)) (fun ks => ks)
      (.text "5") = [] :=
  ⟨(DataConnector.from_json_scalar_empty (fun _ => some (.num 5))
      (fun ks => ks) (.num 5) rfl).1,
   (DataConnector.from_json_scalar_empty (fun _ => some (.num 5))
      (fun ks => ks) (.num 5) rfl).2 "5" rfl⟩

/-- C2 counterexample: constructing the utility with the unknown target
"slack" does not raise; it returns a utility that silently carries the
Teams validator. -/
theorem mkValidationUtility_unknown_target_no_error :
    pyLower "slack" ≠ "teams" ∧
    mkValidationUtility sampleValidator "slack" =
      .ok { target := "slack", validator := sampleValidator } :=
  ⟨by decide, by unfold mkValidationUtility; split <;> rfl⟩

/-- C2 amended: construction never fails — for every target, known or not,
the constructor returns a utility using the Teams validator (the source
comments this fallback as "Use Teams validator as default"). -/
theorem mkValidationUtility_never_raises (tv : CardValidator) (t : String) :
    mkValidationUtility tv t = .ok { target := t, validator := tv } := by
  unfold mkValidationUtility
  split <;> rfl

/-- C4: `validate` is idempotent — a second `validate` of the same card on
the utility state left behind by the first yields the identical report
(the stored library findings are overwritten, not accumulated, and every
report field is a function of the unchanged card and configuration). -/
theorem ValidationUtility.validate_idempotent (vu : ValidationUtility)
    (card : AdaptiveCard) :
    (((vu.validate card).2).validate card).1 = (vu.validate card).1 := rfl

/-- C5: on a card whose serialized size exceeds the Teams limit of 28 KB
(body non-empty and schema-clean, so that the size failure is the only
finding), the report's details contain the `SIZE_LIMIT_EXCEEDED` value and
the suggestions are exactly the four fixed size suggestions. -/
theorem ValidationUtility.validate_size_limit_exceeded
    (v : CardValidator) (t : String) (card : AdaptiveCard)
    (ht : pyLower t = "teams")
    (hsize : v.sizeFn card > 28)
    (hbody : (card.body.getD []).isEmpty = false)
    (hschema : v.schemaOk card = true) :
    ValidationFailure.SIZE_LIMIT_EXCEEDED.value ∈
      ((ValidationUtility.validate ⟨t, v⟩ card).1).details ∧
    ((ValidationUtility.validate ⟨t, v⟩ card).1).suggestions =
      sizeLimitSuggestions := by
  have hfind : v.findings card = [.SIZE_LIMIT_EXCEEDED] := by
    unfold CardValidator.findings
    rw [hbody, hschema, if_pos hsize]
    simp
  have hnear : ¬ (v.sizeFn card > (28 : ℚ) * 0.8 ∧ v.sizeFn card ≤ 28) := by
    rintro ⟨-, hle⟩
    exact absurd hsize (not_lt.mpr hle)
  unfold ValidationUtility.validate CardValidator.runValidate
    CardValidator.details CardValidator.card_size
  rw [hfind, ht]
  simp only [if_pos rfl]
  constructor
  · simp
  · simp only [List.flatMap_cons, List.flatMap_nil, suggestionsFor]
    norm_num [hnear]
    exact fun _ => hsize

/-- A concrete 30 KB card/validator pair for instantiating validation
theorems. -/
def validator30 : CardValidator :=
  { sizeFn := fun _ => 30, schemaOk := fun _ => true, lastDetails := [] }

/-- A concrete card with one identified body element. -/
def cardOneItem : AdaptiveCard :=
  { version := "1.5", body := some [{ id := some "x" }] }

/-- Witness for C5: a 30 KB card under the "teams" target. -/
theorem ValidationUtility.validate_size_limit_exceeded_witness :
    ValidationFailure.SIZE_LIMIT_EXCEEDED.value ∈
      ((ValidationUtility.validate ⟨"teams", validator30⟩ cardOneItem).1).details ∧
    ((ValidationUtility.validate ⟨"teams", validator30⟩ cardOneItem).1).suggestions =
      sizeLimitSuggestions :=
  ValidationUtility.validate_size_limit_exceeded validator30 "teams"
    cardOneItem rfl (by norm_num [validator30]) rfl rfl

/-- C6: `suggest_optimizations` yields nothing at or below 70% of the size
limit; above it, a size/percentage line followed — each condition
evaluated independently, in this fixed order — by the element-count
suggestion iff more than 10 body elements, the image suggestion (naming
the image count) iff any body element exposes an image url, and the
nesting suggestion (naming the container count) iff more than 3 body
elements expose child items. -/
theorem ValidationUtility.suggest_optimizations_spec
    (vu : ValidationUtility) (card : AdaptiveCard) :
    (vu.validator.card_size card ≤
        ((if pyLower vu.target = "teams" then 28 else 40 : Nat) : ℚ) * 0.7 →
      vu.suggest_optimizations card = []) ∧
    (vu.validator.card_size card >
        ((if pyLower vu.target = "teams" then 28 else 40 : Nat) : ℚ) * 0.7 →
      vu.suggest_optimizations card =
        ("Card size (" ++ fmtFixed 2 (vu.validator.card_size card) ++
         "KB) is " ++
         fmtFixed 1 (vu.validator.card_size card /
           ((if pyLower vu.target = "teams" then 28 else 40 : Nat) : ℚ) *
           100) ++ "% of the limit.") ::
        ((if (card.body.getD []).length > 10 then
            ["Consider reducing the number of elements in the card."]
          else []) ++
         (if (card.body.getD []).countP (fun i => i.hasUrl) > 0 then
            ["Card contains " ++
             toString ((card.body.getD []).countP (fun i => i.hasUrl)) ++
             " images. Consider reducing image count or size."]
          else []) ++
         (if (card.body.getD []).countP (fun i => i.hasItems) > 3 then
            ["Card contains " ++
             toString ((card.body.getD []).countP (fun i => i.hasItems)) ++
             " containers. Consider simplifying the structure."]
          else []))) := by
  constructor
  · intro h
    unfold ValidationUtility.suggest_optimizations
    dsimp only
    rw [if_neg (not_lt.mpr h)]
  · intro h
    unfold ValidationUtility.suggest_optimizations
    dsimp only
    rw [if_pos h]
    simp [List.append_assoc]

/-- Witness for C6: a 10 KB card yields no suggestions; a 25 KB card with
an empty body yields exactly the size/percentage line. -/
theorem ValidationUtility.suggest_optimizations_spec_witness :
    ValidationUtility.suggest_optimizations
      ⟨"teams", { sizeFn := fun _ => 10, schemaOk := fun _ => true,
                  lastDetails := [] }⟩
      { version := "1.5", body := none } = [] ∧
    ValidationUtility.suggest_optimizations
      ⟨"teams", { sizeFn := fun _ => 25, schemaOk := fun _ => true,
                  lastDetails := [] }⟩
      { version := "1.5", body := none } =
      ["Card size (" ++ fmtFixed 2 25 ++ "KB) is " ++
       fmtFixed 1 (25 / ((28 : Nat) : ℚ) * 100) ++ "% of the limit."] := by
  have hpt : pyLower "teams" = "teams" := by decide
  constructor
  · exact (ValidationUtility.suggest_optimizations_spec _ _).1
      (by norm_num [CardValidator.card_size, hpt])
  · have h := (ValidationUtility.suggest_optimizations_spec
      ⟨"teams", { sizeFn := fun _ => 25, schemaOk := fun _ => true,
                  lastDetails := [] }⟩
      { version := "1.5", body := none }).2
      (by norm_num [CardValidator.card_size, hpt])
    rw [h]
    simp [hpt, CardValidator.card_size]

/-- Zipping a replicated left list is a map over the truncated right
list. -/
theorem zipWith_replicate_left_eq {α β γ : Type} (f : α → β → γ) (a : α) :
    ∀ (n : Nat) (l : List β),
      List.zipWith f (List.replicate n a) l = (l.take n).map (f a)
  | 0, _ => by simp
  | _ + 1, [] => by simp
  | n + 1, b :: l => by
      simp [List.replicate_succ, zipWith_replicate_left_eq f a n l]

/-- Indexing the data-row containers: entry `k` is the container of row
`k`, with the accent style exactly when the running index `i + k` is
odd and alternation is on. -/
theorem dataRowContainers_getElem (alt : Bool) (cw : List ColWidth) :
    ∀ (rows : List (List String)) (i k : Nat),
      (DataConnector.dataRowContainers alt cw i rows)[k]? =
        (rows[k]?).map (fun row =>
          Element.container [.columnSet (DataConnector.rowColumns cw row)]
            (if alt ∧ (i + k) % 2 = 1 then some .accent else none)
            none false false)
  | [], _, k => by simp [DataConnector.dataRowContainers]
  | row :: rest, i, 0 => by simp [DataConnector.dataRowContainers]
  | row :: rest, i, k + 1 => by
      have ih := dataRowContainers_getElem alt cw rest (i + 1) k
      simp only [DataConnector.dataRowContainers, List.getElem?_cons_succ,
        ih]
      have harith : i + 1 + k = i + (k + 1) := by omega
      rw [harith]

/-- The shape of a defined `create_table` result: the optional header
container followed by the data-row containers. -/
theorem create_table_some_shape {headers : List String}
    {rows : List (List String)} {column_widths : Option (List ColWidth)}
    {has_header_row alternate_row_style : Bool} {es : List Element}
    (h : DataConnector.create_table headers rows column_widths
      has_header_row alternate_row_style = some es) :
    es =
      (if has_header_row then
        [Element.container
          [.columnSet (DataConnector.headerColumns
            (column_widths.getD
              (List.replicate headers.length (ColWidth.num 1))) headers)]
          (some .emphasis) none true false]
       else []) ++
      DataConnector.dataRowContainers alternate_row_style
        (column_widths.getD
          (List.replicate headers.length (ColWidth.num 1))) 0 rows := by
  unfold DataConnector.create_table at h
  dsimp only at h
  split at h
  · exact absurd h (by simp)
  · exact (Option.some.injEq _ _ ▸ h).symm

/-- C7: in every defined `create_table` result with
`alternate_row_style = true`, the container of the data row at 0-based
index `k` carries the accent style iff `k` is odd (and no style when `k`
is even). -/
theorem DataConnector.create_table_alternate_row_style
    (headers : List String) (rows : List (List String))
    (column_widths : Option (List ColWidth)) (has_header_row : Bool)
    (es : List Element)
    (h : DataConnector.create_table headers rows column_widths
      has_header_row true = some es)
    (k : Nat) (hk : k < rows.length) :
    ∃ cols : List Column,
      es[(if has_header_row then 1 else 0) + k]? =
        some (Element.container [.columnSet cols]
          (if k % 2 = 1 then some ContainerStyle.accent else none)
          none false false) := by
  have hes := create_table_some_shape h
  subst hes
  refine ⟨DataConnector.rowColumns
    (column_widths.getD (List.replicate headers.length (ColWidth.num 1)))
    (rows.get ⟨k, hk⟩), ?_⟩
  rw [List.getElem?_append_right (by cases has_header_row <;> simp)]
  have hidx : (if has_header_row then 1 else 0) + k -
      (if has_header_row then
        [Element.container
          [.columnSet (DataConnector.headerColumns
            (column_widths.getD
              (List.replicate headers.length (ColWidth.num 1))) headers)]
          (some .emphasis) none true false]
       else [] : List Element).length = k := by
    cases has_header_row <;> simp
  rw [hidx, dataRowContainers_getElem,
    List.getElem?_eq_getElem hk]
  simp

/-- Witness for C7: a two-row table with no header row — the row at index
1 (odd) carries the accent style. -/
theorem DataConnector.create_table_alternate_row_style_witness :
    ∃ cols : List Column,
      ((DataConnector.create_table ["h"] [["a"], ["b"]] none false
        true).getD [])[1]? =
        some (Element.container [.columnSet cols]
          (some ContainerStyle.accent) none false false) :=
  DataConnector.create_table_alternate_row_style ["h"] [["a"], ["b"]] none
    false _ rfl 1 (by decide)

/-- C3 counterexample: with headers `["a", "b"]`, the single (short) row
`["x"]` produces a row container with exactly one column — it is not
padded with an empty text cell to the header count of 2. -/
theorem DataConnector.create_table_short_row_not_padded :
    DataConnector.containerColumnCounts
      ((DataConnector.create_table ["a", "b"] [["x"]] none false
        true).getD []) = [1] ∧
    (1 : Nat) ≠ ["a", "b"].length :=
  ⟨rfl, by decide⟩

/-- C3 amended: with default column widths, each emitted data-row
container holds exactly the row's first `headers.length` cells as columns
— cells beyond the header count are dropped, and a shorter row yields
only its own cells (`min` of row length and header count), with no
empty-text padding. -/
theorem DataConnector.create_table_row_cells_truncated
    (headers : List String) (rows : List (List String))
    (has_header_row alternate_row_style : Bool) (es : List Element)
    (h : DataConnector.create_table headers rows none has_header_row
      alternate_row_style = some es)
    (k : Nat) (hk : k < rows.length) :
    ∃ st : Option ContainerStyle,
      es[(if has_header_row then 1 else 0) + k]? =
        some (Element.container
          [.columnSet (((rows.get ⟨k, hk⟩).take headers.length).map
            (fun c => Column.mk
              [.textBlock (ElementFactory.create_text c false none none)]
              (ColWidth.num 1)))]
          st none false false) ∧
      (((rows.get ⟨k, hk⟩).take headers.length).length =
        min (rows.get ⟨k, hk⟩).length headers.length) := by
  have hes := create_table_some_shape h
  subst hes
  refine ⟨if alternate_row_style ∧ k % 2 = 1 then some .accent else none,
    ?_, ?_⟩
  · rw [List.getElem?_append_right (by cases has_header_row <;> simp)]
    have hidx : (if has_header_row then 1 else 0) + k -
        (if has_header_row then
          [Element.container
            [.columnSet (DataConnector.headerColumns
              ((none : Option (List ColWidth)).getD
                (List.replicate headers.length (ColWidth.num 1))) headers)]
            (some .emphasis) none true false]
         else [] : List Element).length = k := by
      cases has_header_row <;> simp
    rw [hidx, dataRowContainers_getElem, List.getElem?_eq_getElem hk]
    simp [DataConnector.rowColumns, zipWith_replicate_left_eq]
  · simp [Nat.min_comm]

/-- Witness for C3 (amended): headers `["a", "b"]` and the long row
`["x", "y", "z"]` — exactly the first two cells become columns. -/
theorem DataConnector.create_table_row_cells_truncated_witness :
    ∃ st : Option ContainerStyle,
      ((DataConnector.create_table ["a", "b"] [["x", "y", "z"]] none false
        false).getD [])[0]? =
        some (Element.container
          [.columnSet
            [Column.mk
              [.textBlock (ElementFactory.create_text "x" false none none)]
              (ColWidth.num 1),
             Column.mk
              [.textBlock (ElementFactory.create_text "y" false none none)]
              (ColWidth.num 1)]]
          st none false false) ∧
      ((["x", "y", "z"].take 2).length = min 3 2) :=
  DataConnector.create_table_row_cells_truncated ["a", "b"] [["x", "y", "z"]]
    false false _ rfl 0 (by decide)

/-- Membership in `firstSeen` is membership in the scan list. -/
theorem mem_firstSeen (a : String) :
    ∀ ks : List String, a ∈ DataConnector.firstSeen ks ↔ a ∈ ks
  | [] => by simp [DataConnector.firstSeen]
  | k :: ks => by
      by_cases h : a = k <;>
        simp [DataConnector.firstSeen, List.mem_filter, h,
          mem_firstSeen a ks]

/-- `firstSeen` never repeats a key. -/
theorem firstSeen_nodup : ∀ ks : List String,
    (DataConnector.firstSeen ks).Nodup
  | [] => by simp [DataConnector.firstSeen]
  | k :: ks => by
      simp only [DataConnector.firstSeen, List.nodup_cons]
      refine ⟨fun hmem => ?_, (firstSeen_nodup ks).filter _⟩
      simp at hmem

/-- A possible `set` enumeration order: the reverse of the first-seen
order (it enumerates exactly the distinct members, so it satisfies the
`set` contract, but in a different order). -/
def revFirstSeen (ks : List String) : List String :=
  (DataConnector.firstSeen ks).reverse

/-- `firstSeen` itself is a legitimate `set` enumeration. -/
theorem validSetOrder_firstSeen :
    DataConnector.ValidSetOrder DataConnector.firstSeen :=
  fun ks => ⟨firstSeen_nodup ks, fun k => mem_firstSeen k ks⟩

/-- The reverse of the first-seen order is a legitimate `set`
enumeration, too. -/
theorem validSetOrder_revFirstSeen :
    DataConnector.ValidSetOrder revFirstSeen :=
  fun ks =>
    ⟨List.nodup_reverse.mpr (firstSeen_nodup ks),
     fun k => by simp [revFirstSeen, mem_firstSeen]⟩

/-- C1 counterexample: the code collects header keys into an unordered
`set`, so the header order is not determined: the enumeration
`revFirstSeen` satisfies the `set` contract, yet on the records
`[{"b": 0}, {"a": 0}]` it yields headers `["a", "b"]` while the
first-seen scan order is `["b", "a"]` — and `from_json` builds its table
from those `["a", "b"]` headers. -/
theorem DataConnector.from_json_headers_not_first_seen :
    DataConnector.ValidSetOrder revFirstSeen ∧
    DataConnector.fromJsonHeaders revFirstSeen
      [.obj [("b", .num 0)], .obj [("a", .num 0)]] = ["a", "b"] ∧
    DataConnector.firstSeen
      (List.flatMap
        [DataConnector.JsonValue.obj [("b", DataConnector.JsonValue.num 0)],
         DataConnector.JsonValue.obj [("a", DataConnector.JsonValue.num 0)]]
        DataConnector.JsonValue.keys) =
      ["b", "a"] ∧
    (["a", "b"] : List String) ≠ ["b", "a"] ∧
    DataConnector.from_json (fun _ => none) revFirstSeen
      (.value (.arr [.obj [("b", .num 0)], .obj [("a", .num 0)]])) =
      (DataConnector.create_table ["a", "b"] [["", "0"], ["0", ""]] none
        true true).getD [] :=
  ⟨validSetOrder_revFirstSeen, rfl, rfl, by decide, rfl⟩

/-- C1 amended: for every legitimate `set` enumeration order, the headers
computed by `from_json` are a duplicate-free sequence containing exactly
the keys occurring in the records — the membership is the first-seen
union, but the order is implementation-dependent rather than the
first-seen scan order. -/
theorem DataConnector.from_json_headers_enumerate_key_union
    (setOrder : List String → List String)
    (hso : DataConnector.ValidSetOrder setOrder)
    (items : List DataConnector.JsonValue) :
    (DataConnector.fromJsonHeaders setOrder items).Nodup ∧
    ∀ k, k ∈ DataConnector.fromJsonHeaders setOrder items ↔
      k ∈ items.flatMap DataConnector.JsonValue.keys :=
  ⟨(hso _).1, fun k => (hso _).2 k⟩

/-- Witness for C1 (amended), with the first-seen enumeration itself as
the `set` order and the records `[{"b": 0}, {"a": 0}]`. -/
theorem DataConnector.from_json_headers_enumerate_key_union_witness :
    (DataConnector.fromJsonHeaders DataConnector.firstSeen
      [.obj [("b", .num 0)], .obj [("a", .num 0)]]).Nodup ∧
    ("a" ∈ DataConnector.fromJsonHeaders DataConnector.firstSeen
        [.obj [("b", .num 0)], .obj [("a", .num 0)]] ↔
      "a" ∈ List.flatMap
        [DataConnector.JsonValue.obj [("b", DataConnector.JsonValue.num 0)],
         DataConnector.JsonValue.obj [("a", DataConnector.JsonValue.num 0)]]
        DataConnector.JsonValue.keys) :=
  ⟨(DataConnector.from_json_headers_enumerate_key_union
      DataConnector.firstSeen validSetOrder_firstSeen _).1,
   (DataConnector.from_json_headers_enumerate_key_union
      DataConnector.firstSeen validSetOrder_firstSeen _).2 "a"⟩

